import Mathlib

/-!
Verification of the FileSource channel-transmit plugin
(`plugins/channeltx/filesource/filesource.cpp`) of the sdrangel
software-defined-radio application.

The embedding models the control-plane of `FileSource`: its settings
snapshot, the filter-chain selector validation, the frequency-offset
computation, the settings-apply path with field-by-field change
detection, the message handler, the deserialization entry point and the
elapsed-time part of the channel report.  C++ `unsigned int` arithmetic
is modelled as `Nat` with explicit reduction modulo `2 ^ 32` where the
source can overflow; `double` quantities that the source computes
exactly (dyadic shift factors and their products with integer sample
rates) are modelled in `ℚ`.
-/

namespace FileSourceModel

/-- Modulus of C++ 32-bit `unsigned int` arithmetic. -/
def U32 : Nat := 2 ^ 32

/-- The `FileSourceSettings` snapshot struct, with the fields used by
`filesource.cpp`.  `m_log2Interp` and `m_filterChainHash` are `quint32`
in the source; they are modelled as `Nat` together with the explicit
`% U32` reductions at the spots where the source arithmetic wraps. -/
structure FileSourceSettings where
  fileName : String
  loop : Bool
  gainDB : Int
  log2Interp : Nat
  filterChainHash : Nat
  useReverseAPI : Bool
  reverseAPIAddress : String
  reverseAPIPort : Nat
  reverseAPIDeviceIndex : Nat
  reverseAPIChannelIndex : Nat
  rgbColor : Int
  title : String
deriving DecidableEq, Repr

/-- The loop
`unsigned int s = 1; for (i = 0; i < log2Interp; i++) s *= 3;`
of `FileSource::validateFilterChainHash`: `3 ^ l` computed in 32-bit
unsigned arithmetic, hence reduced modulo `2 ^ 32` at every step. -/
def pow3u32 : Nat → Nat
  | 0 => 1
  | n + 1 => pow3u32 n * 3 % U32

/-- `FileSource::validateFilterChainHash` (filesource.cpp lines 257-266):
`settings.m_filterChainHash = settings.m_filterChainHash >= s ? s-1 : settings.m_filterChainHash;`
with `s` the 32-bit power of three above. -/
def validateFilterChainHash (settings : FileSourceSettings) : FileSourceSettings :=
  let s := pow3u32 settings.log2Interp
  { settings with
      filterChainHash :=
        if settings.filterChainHash ≥ s then s - 1 else settings.filterChainHash }

/-- Contribution of one ternary digit of the filter-chain selector:
digit 1 shifts up, digit 2 shifts down, any other digit leaves the
stage centred.

Modelled from the spec: `HBFilterChainConverter::getShiftFactor` is not
part of the excerpt; spec section 4.3 defines the pure function by the
digits of the selector code in base 3, each digit of the cascade
meaning \x7bno shift, +shift, −shift\x7d for \x7b0, 1, 2\x7d. -/
def digitContrib (d : Nat) : ℚ :=
  if d = 1 then 1 else if d = 2 then -1 else 0

/-- Modelled from the spec: the half-band filter-chain shift factor
`shiftFactor(stageCount, selectorCode)` of spec section 4.3
(`HBFilterChainConverter::getShiftFactor` is not part of the excerpt).
The selector code is read as `stageCount` base-3 digits, most
significant digit first; the stage closest to the original signal
contributes the largest fraction, `±1/4` of the final rate, and each
successive stage contributes half the previous fraction. -/
def shiftFactor : Nat → Nat → ℚ
  | 0, _ => 0
  | n + 1, code => digitContrib (code / 3 ^ n) / 4 + shiftFactor n (code % 3 ^ n) / 2

/-- The message kinds `FileSource::handleMessage` can receive.  The
recognized kinds carry the payload the handler reads; `unknown` stands
for every concrete `Message` subclass that none of the `match` tests of
the handler accepts (the tag distinguishes such kinds from one
another). -/
inductive Message where
  | dspSignalNotification (sampleRate : Int) (centerFrequency : Int)
  | msgConfigureFileSource (settings : FileSourceSettings) (force : Bool)
  | msgConfigureFileSourceName (fileName : String)
  | msgConfigureFileSourceWork (working : Bool)
  | msgConfigureFileSourceSeek (seekMillis : Int)
  | msgConfigureFileSourceStreamTiming
  | unknown (tag : Nat)
deriving DecidableEq, Repr

/-- Messages `FileSource` pushes to the baseband source's input queue. -/
inductive BasebandMessage where
  | dspSignalNotification (sampleRate : Int) (centerFrequency : Int)
  | configureFileSourceBaseband (settings : FileSourceSettings) (force : Bool)
  | configureFileSourceName (fileName : String)
  | configureFileSourceWork (working : Bool)
  | configureFileSourceSeek (seekMillis : Int)
deriving DecidableEq, Repr

/-- Messages `FileSource` pushes to the GUI message queue. -/
inductive GuiMessage where
  | msgSampleRateNotification (sampleRate : Int)
  | msgReportFileSourceStreamTiming (samplesCount : Nat)
deriving DecidableEq, Repr

/-- The component state of a `FileSource` object that the modelled
member functions read or write: the stored settings, the cached
baseband sample rate, frequency offset, center frequency and linear
gain, the two outbound queues (modelled as the lists of messages pushed
so far, oldest first; `guiQueue = none` models a null
`m_guiMessageQueue`), the channel's own input queue, and the baseband
source's sample counter (read by the stream-timing report). -/
structure FileSourceState where
  settings : FileSourceSettings
  basebandSampleRate : Int
  frequencyOffset : ℚ
  centerFrequency : Int
  linearGain : ℚ
  basebandQueue : List BasebandMessage
  guiQueue : Option (List GuiMessage)
  inputQueue : List Message
  samplesCount : Nat
deriving DecidableEq, Repr

/-- Push one message on the baseband source's input queue. -/
def pushBaseband (st : FileSourceState) (m : BasebandMessage) : FileSourceState :=
  { st with basebandQueue := st.basebandQueue ++ [m] }

/-- `FileSource::calculateFrequencyOffset` (filesource.cpp lines 268-272):
`m_frequencyOffset = m_basebandSampleRate * shiftFactor` with the shift
factor of the current settings.  The shift factor is a dyadic rational
of small magnitude, so the `double` computation of the source is exact
and the `ℚ` model loses nothing. -/
def calculateFrequencyOffset (st : FileSourceState) : FileSourceState :=
  { st with
      frequencyOffset :=
        (st.basebandSampleRate : ℚ) *
          shiftFactor st.settings.log2Interp st.settings.filterChainHash }

/-- `FileSource::applySettings` (filesource.cpp lines 210-255),
parameterized by `powerFromdB`, the dB-to-linear conversion
`CalcDb::powerFromdB` of `util/db.cpp`, which is not part of the
excerpt.  Returns the new component state and the `reverseAPIKeys`
list the source builds for the reverse API.  The reverse-API network
transmission itself is external I/O (spec section 1 puts the REST
transport out of scope) and is not modelled beyond that key list. -/
def applySettings (powerFromdB : Int → ℚ) (st : FileSourceState)
    (settings : FileSourceSettings) (force : Bool) :
    FileSourceState × List String :=
  let keysLoop : List String :=
    if st.settings.loop ≠ settings.loop ∨ force then ["loop"] else []
  let keysFileName : List String :=
    if st.settings.fileName ≠ settings.fileName ∨ force then ["fileName"] else []
  let keysGainDB : List String :=
    if st.settings.gainDB ≠ settings.gainDB ∨ force then ["gainDB"] else []
  let reverseAPIKeys := keysLoop ++ keysFileName ++ keysGainDB
  let linearGain :=
    if st.settings.gainDB ≠ settings.gainDB ∨ force then powerFromdB settings.gainDB
    else st.linearGain
  let st' := pushBaseband { st with linearGain := linearGain }
    (.configureFileSourceBaseband settings force)
  ({ st' with settings := settings }, reverseAPIKeys)

/-- `FileSource::handleMessage` (filesource.cpp lines 110-185): the
chain of `match` tests over the received message's concrete kind.
Returns the handled flag and the new component state. -/
def handleMessage (powerFromdB : Int → ℚ) (st : FileSourceState) (cmd : Message) :
    Bool × FileSourceState :=
  match cmd with
  | .dspSignalNotification sampleRate centerFrequency =>
    let st₁ := { st with basebandSampleRate := sampleRate }
    let st₂ := calculateFrequencyOffset st₁
    let st₃ := { st₂ with centerFrequency := centerFrequency }
    let st₄ := pushBaseband st₃ (.dspSignalNotification sampleRate centerFrequency)
    let st₅ :=
      match st₄.guiQueue with
      | some q =>
        { st₄ with guiQueue := some (q ++ [.msgSampleRateNotification sampleRate]) }
      | none => st₄
    (true, st₅)
  | .msgConfigureFileSource settings force =>
    (true, (applySettings powerFromdB st settings force).1)
  | .msgConfigureFileSourceName fileName =>
    (true, pushBaseband st (.configureFileSourceName fileName))
  | .msgConfigureFileSourceWork working =>
    (true, pushBaseband st (.configureFileSourceWork working))
  | .msgConfigureFileSourceSeek seekMillis =>
    (true, pushBaseband st (.configureFileSourceSeek seekMillis))
  | .msgConfigureFileSourceStreamTiming =>
    let st₁ :=
      match st.guiQueue with
      | some q =>
        { st with guiQueue := some (q ++ [.msgReportFileSourceStreamTiming st.samplesCount]) }
      | none => st
    (true, st₁)
  | .unknown _ => (false, st)

/-- `FileSource::deserialize` (filesource.cpp lines 192-208),
parameterized by the settings codec `des` (the body of
`FileSourceSettings::deserialize` is not part of the excerpt;
`des data = some s` models a successful parse with result `s`) and by
`defaults`, the value `FileSourceSettings::resetToDefaults` installs.
Takes the stored settings and the channel input queue; returns the
C++ return value, the new stored settings and the new input queue. -/
def deserialize (des : List Nat → Option FileSourceSettings)
    (defaults : FileSourceSettings) (settings : FileSourceSettings)
    (inputQueue : List Message) (data : List Nat) :
    Bool × FileSourceSettings × List Message :=
  match des data with
  | some s => (true, s, inputQueue ++ [.msgConfigureFileSource s true])
  | none => (false, defaults, inputQueue ++ [.msgConfigureFileSource defaults true])

/-- Elapsed-time computation of `FileSource::webapiFormatChannelReport`
(filesource.cpp lines 388-402): `t_sec` and `t_msec` stay zero unless
`fileSampleRate > 0`, in which case they come from the integer
divisions of the source.  All intermediate values fit in 64 bits for
every `quint64` sample count and `uint32` rate, so plain `Nat`
arithmetic is exact. -/
def elapsedTime (samplesCount fileSampleRate : Nat) : Nat × Nat :=
  if fileSampleRate > 0 then
    let tSec := samplesCount / fileSampleRate
    (tSec, (samplesCount - tSec * fileSampleRate) * 1000 / fileSampleRate)
  else
    (0, 0)

/-- Two-digit zero-padded decimal field of Qt time formatting. -/
def pad2 (n : Nat) : String :=
  if n < 10 then "0" ++ toString n else toString n

/-- Three-digit zero-padded decimal field of Qt time formatting. -/
def pad3 (n : Nat) : String :=
  if n < 10 then "00" ++ toString n
  else if n < 100 then "0" ++ toString n
  else toString n

/-- `QTime(0,0,0,0).addSecs(tSec).addMSecs(tMsec).toString("HH:mm:ss.zzz")`
for `tMsec < 1000`: hours wrap within a day. -/
def formatElapsed (tSec tMsec : Nat) : String :=
  pad2 (tSec / 3600 % 24) ++ ":" ++ pad2 (tSec / 60 % 60) ++ ":" ++
    pad2 (tSec % 60) ++ "." ++ pad3 tMsec

/-- The elapsed-time string `FileSource::webapiFormatChannelReport`
stores in the channel report. -/
def reportElapsedString (samplesCount fileSampleRate : Nat) : String :=
  formatElapsed (elapsedTime samplesCount fileSampleRate).1
    (elapsedTime samplesCount fileSampleRate).2

/-- A concrete settings value used to instantiate universally
quantified theorems on concrete inputs. -/
def sampleSettings : FileSourceSettings :=
  { fileName := "test.sdriq"
    loop := false
    gainDB := 0
    log2Interp := 2
    filterChainHash := 5
    useReverseAPI := false
    reverseAPIAddress := "127.0.0.1"
    reverseAPIPort := 8888
    reverseAPIDeviceIndex := 0
    reverseAPIChannelIndex := 0
    rgbColor := 0
    title := "File source" }

/-- A concrete component state used to instantiate universally
quantified theorems on concrete inputs. -/
def sampleState : FileSourceState :=
  { settings := sampleSettings
    basebandSampleRate := 48000
    frequencyOffset := 0
    centerFrequency := 0
    linearGain := 1
    basebandQueue := []
    guiQueue := some []
    inputQueue := []
    samplesCount := 0 }

/-- Settings whose filter-chain selector 9 is out of range for 2
interpolation stages (the valid codes are 0..8). -/
def sampleClampSettings : FileSourceSettings :=
  { sampleSettings with log2Interp := 2, filterChainHash := 9 }

/-- Settings with 21 interpolation stages: `3 ^ 21 = 10460353203`
overflows the 32-bit accumulator of `validateFilterChainHash`, which
therefore compares against `3 ^ 21 % 2 ^ 32 = 1870418611` instead.  The
selector 2000000000 is below `3 ^ 21` but above the wrapped bound. -/
def overflowSettings : FileSourceSettings :=
  { sampleSettings with log2Interp := 21, filterChainHash := 2000000000 }

theorem pow3u32_mod_two (l : Nat) : pow3u32 l % 2 = 1 := by
  induction l with
  | zero => rfl
  | succ n ih =>
    have h2 : (2 : Nat) ∣ U32 := ⟨2 ^ 31, by norm_num [U32]⟩
    show pow3u32 n * 3 % U32 % 2 = 1
    rw [Nat.mod_mod_of_dvd _ h2, Nat.mul_mod, ih]

theorem pow3u32_pos (l : Nat) : 0 < pow3u32 l := by
  have h := pow3u32_mod_two l
  omega

theorem pow3u32_eq_mod (l : Nat) : pow3u32 l = 3 ^ l % U32 := by
  induction l with
  | zero => rfl
  | succ n ih =>
    show pow3u32 n * 3 % U32 = 3 ^ (n + 1) % U32
    rw [ih, Nat.mod_mul_mod, pow_succ]

theorem pow3u32_eq_pow (l : Nat) (h : l ≤ 20) : pow3u32 l = 3 ^ l := by
  rw [pow3u32_eq_mod]
  have hle : (3 : Nat) ^ l ≤ 3 ^ 20 := Nat.pow_le_pow_right (by norm_num) h
  have : (3 : Nat) ^ l < U32 := lt_of_le_of_lt hle (by norm_num [U32])
  exact Nat.mod_eq_of_lt this

theorem validateFilterChainHash_hash_lt (s : FileSourceSettings) :
    (validateFilterChainHash s).filterChainHash < pow3u32 s.log2Interp := by
  have hpos := pow3u32_pos s.log2Interp
  simp only [validateFilterChainHash]
  split_ifs with h <;> omega

theorem validateFilterChainHash_log2 (s : FileSourceSettings) :
    (validateFilterChainHash s).log2Interp = s.log2Interp := rfl

theorem validateFilterChainHash_eq_of_lt (s : FileSourceSettings)
    (h : s.filterChainHash < pow3u32 s.log2Interp) :
    validateFilterChainHash s = s := by
  simp only [validateFilterChainHash]
  rw [if_neg (by omega)]

theorem abs_digitContrib_le (d : Nat) : |digitContrib d| ≤ 1 := by
  unfold digitContrib
  split_ifs <;> norm_num

theorem abs_shiftFactor_le (n : Nat) : ∀ c, |shiftFactor n c| ≤ 1 / 2 - (1 / 2) ^ (n + 1) := by
  induction n with
  | zero =>
    intro c
    simp [shiftFactor]
  | succ m ih =>
    intro c
    have h1 := abs_digitContrib_le (c / 3 ^ m)
    have h2 := ih (c % 3 ^ m)
    have hpow : ((1 : ℚ) / 2) ^ (m + 2) = ((1 : ℚ) / 2) ^ (m + 1) * (1 / 2) :=
      pow_succ _ _
    have hdef : shiftFactor (m + 1) c =
        digitContrib (c / 3 ^ m) / 4 + shiftFactor m (c % 3 ^ m) / 2 := rfl
    have e1 : |digitContrib (c / 3 ^ m) / 4| = |digitContrib (c / 3 ^ m)| / 4 := by
      rw [abs_div]
      norm_num
    have e2 : |shiftFactor m (c % 3 ^ m) / 2| = |shiftFactor m (c % 3 ^ m)| / 2 := by
      rw [abs_div]
      norm_num
    have h3 := abs_add (digitContrib (c / 3 ^ m) / 4) (shiftFactor m (c % 3 ^ m) / 2)
    rw [e1, e2] at h3
    rw [hdef]
    linarith

/-- Claim C1 (corrected), counterexample: for 21 interpolation stages
the 32-bit accumulator wraps, and the selector 2000000000 — which is in
range for `3 ^ 21`, so the claim says it is left unchanged — is
nevertheless clamped down to the wrapped bound minus one. -/
theorem validateFilterChainHash_overflow_counterexample :
    overflowSettings.filterChainHash < 3 ^ overflowSettings.log2Interp ∧
    (validateFilterChainHash overflowSettings).filterChainHash ≠
      overflowSettings.filterChainHash ∧
    (validateFilterChainHash overflowSettings).filterChainHash = 1870418610 := by
  refine ⟨by norm_num [overflowSettings, sampleSettings], ?_, ?_⟩ <;>
    simp [validateFilterChainHash, overflowSettings, sampleSettings,
      pow3u32_eq_mod, U32]

/-- Claim C1 (amended): provided `3 ^ m_log2Interp` fits the 32-bit
accumulator (`m_log2Interp ≤ 20`), `validateFilterChainHash` clamps the
selector: a selector at or above `3 ^ m_log2Interp` is set to
`3 ^ m_log2Interp - 1`, any other selector (and the whole settings
value) is left unchanged.  For every settings value — with or without
overflow — the selector afterwards satisfies
`m_filterChainHash < 3 ^ m_log2Interp`, and the stream is never failed
(the function always returns a settings value). -/
theorem validateFilterChainHash_clamps (s : FileSourceSettings)
    (h : s.log2Interp ≤ 20) :
    ((validateFilterChainHash s).filterChainHash =
      if s.filterChainHash ≥ 3 ^ s.log2Interp then 3 ^ s.log2Interp - 1
      else s.filterChainHash) ∧
    (s.filterChainHash < 3 ^ s.log2Interp → validateFilterChainHash s = s) ∧
    ∀ s' : FileSourceSettings,
      (validateFilterChainHash s').filterChainHash < 3 ^ s'.log2Interp := by
  have hp := pow3u32_eq_pow s.log2Interp h
  refine ⟨?_, ?_, fun s' => ?_⟩
  · simp only [validateFilterChainHash, hp]
  · intro hlt
    exact validateFilterChainHash_eq_of_lt s (by omega)
  · have h1 := validateFilterChainHash_hash_lt s'
    have h2 : pow3u32 s'.log2Interp ≤ 3 ^ s'.log2Interp := by
      rw [pow3u32_eq_mod]
      exact Nat.mod_le _ _
    omega

/-- Witness for C1 (amended) at a concrete input: 2 stages, selector 9
out of range, clamped to `3 ^ 2 - 1 = 8`. -/
theorem validateFilterChainHash_clamps_witness :
    (validateFilterChainHash sampleClampSettings).filterChainHash =
      if sampleClampSettings.filterChainHash ≥ 3 ^ sampleClampSettings.log2Interp
      then 3 ^ sampleClampSettings.log2Interp - 1
      else sampleClampSettings.filterChainHash :=
  (validateFilterChainHash_clamps sampleClampSettings (by norm_num [sampleClampSettings, sampleSettings])).1

/-- Claim C10: `validateFilterChainHash` is idempotent — the value it
produces is always below the (32-bit) bound it compares against, so a
second application leaves the settings unchanged. -/
theorem validateFilterChainHash_idempotent (s : FileSourceSettings) :
    validateFilterChainHash (validateFilterChainHash s) = validateFilterChainHash s := by
  apply validateFilterChainHash_eq_of_lt
  rw [validateFilterChainHash_log2]
  exact validateFilterChainHash_hash_lt s

/-- Claim C5: for every stage count and every selector code in range,
the spec-modelled half-band shift factor lies in `[-1/2, 1/2)`, and
`calculateFrequencyOffset` stores the baseband sample rate multiplied
by the shift factor of the current settings. -/
theorem shiftFactor_range_and_offset (n c : Nat) (h : c < 3 ^ n) :
    (-(1 / 2) ≤ shiftFactor n c ∧ shiftFactor n c < 1 / 2) ∧
    ∀ st : FileSourceState,
      (calculateFrequencyOffset st).frequencyOffset =
        (st.basebandSampleRate : ℚ) *
          shiftFactor st.settings.log2Interp st.settings.filterChainHash := by
  refine ⟨?_, fun st => rfl⟩
  have hb := abs_shiftFactor_le n c
  have hpow : (0 : ℚ) < (1 / 2) ^ (n + 1) := by positivity
  have habs := abs_le.mp hb
  constructor <;> linarith [habs.1, habs.2]

/-- Witness for C5 at a concrete input: 2 stages, selector 5. -/
theorem shiftFactor_range_and_offset_witness :
    (5 < 3 ^ 2) ∧ (-(1 / 2) ≤ shiftFactor 2 5 ∧ shiftFactor 2 5 < 1 / 2) :=
  ⟨by norm_num, (shiftFactor_range_and_offset 2 5 (by norm_num)).1⟩

/-- Claim C8: the shift factor is deterministic and pure — equal inputs
give equal outputs — and `calculateFrequencyOffset` computes the same
frequency offset from equal settings and baseband sample rates while
touching no other component state. -/
theorem shiftFactor_pure (n₁ c₁ n₂ c₂ : Nat) (hn : n₁ = n₂) (hc : c₁ = c₂)
    (st₁ st₂ : FileSourceState)
    (hl : st₁.settings.log2Interp = st₂.settings.log2Interp)
    (hh : st₁.settings.filterChainHash = st₂.settings.filterChainHash)
    (hr : st₁.basebandSampleRate = st₂.basebandSampleRate) :
    shiftFactor n₁ c₁ = shiftFactor n₂ c₂ ∧
    (calculateFrequencyOffset st₁).frequencyOffset =
      (calculateFrequencyOffset st₂).frequencyOffset ∧
    (calculateFrequencyOffset st₁).settings = st₁.settings ∧
    (calculateFrequencyOffset st₁).basebandSampleRate = st₁.basebandSampleRate ∧
    (calculateFrequencyOffset st₁).centerFrequency = st₁.centerFrequency ∧
    (calculateFrequencyOffset st₁).linearGain = st₁.linearGain ∧
    (calculateFrequencyOffset st₁).basebandQueue = st₁.basebandQueue ∧
    (calculateFrequencyOffset st₁).guiQueue = st₁.guiQueue ∧
    (calculateFrequencyOffset st₁).inputQueue = st₁.inputQueue ∧
    (calculateFrequencyOffset st₁).samplesCount = st₁.samplesCount := by
  subst hn hc
  refine ⟨rfl, ?_, rfl, rfl, rfl, rfl, rfl, rfl, rfl, rfl⟩
  simp [calculateFrequencyOffset, hl, hh, hr]

/-- Witness for C8 at a concrete input. -/
theorem shiftFactor_pure_witness :
    shiftFactor 2 5 = shiftFactor 2 5 ∧
    (calculateFrequencyOffset sampleState).frequencyOffset =
      (calculateFrequencyOffset sampleState).frequencyOffset ∧
    (calculateFrequencyOffset sampleState).settings = sampleState.settings ∧
    (calculateFrequencyOffset sampleState).basebandSampleRate =
      sampleState.basebandSampleRate ∧
    (calculateFrequencyOffset sampleState).centerFrequency = sampleState.centerFrequency ∧
    (calculateFrequencyOffset sampleState).linearGain = sampleState.linearGain ∧
    (calculateFrequencyOffset sampleState).basebandQueue = sampleState.basebandQueue ∧
    (calculateFrequencyOffset sampleState).guiQueue = sampleState.guiQueue ∧
    (calculateFrequencyOffset sampleState).inputQueue = sampleState.inputQueue ∧
    (calculateFrequencyOffset sampleState).samplesCount = sampleState.samplesCount :=
  shiftFactor_pure 2 5 2 5 rfl rfl sampleState sampleState rfl rfl rfl

/-- Claim C2: a message of any kind the handler does not recognize
makes `handleMessage` return `false` — the "not handled" signal — with
the component state untouched (no field modified, nothing enqueued). -/
theorem handleMessage_unrecognized (powerFromdB : Int → ℚ)
    (st : FileSourceState) (tag : Nat) :
    handleMessage powerFromdB st (.unknown tag) = (false, st) := rfl

/-- Claim C3: after `applySettings` the stored configuration equals the
given snapshot in every field — the swap is all-or-nothing. -/
theorem applySettings_stores_snapshot (powerFromdB : Int → ℚ)
    (st : FileSourceState) (settings : FileSourceSettings) (force : Bool) :
    (applySettings powerFromdB st settings force).1.settings = settings := rfl

/-- Claim C4: on a `DSPSignalNotification` carrying rate `R` and center
frequency `F`, `handleMessage` — within the same call — stores `R` as
the baseband sample rate, recomputes the frequency offset from the
current settings at the new rate, forwards a copy of the notification
to the baseband source's input queue, and, when a GUI queue is set,
enqueues a `MsgSampleRateNotification` carrying exactly `R`. -/
theorem handleMessage_dspSignalNotification (powerFromdB : Int → ℚ)
    (st : FileSourceState) (rate freq : Int) :
    (handleMessage powerFromdB st (.dspSignalNotification rate freq)).1 = true ∧
    (handleMessage powerFromdB st (.dspSignalNotification rate freq)).2.basebandSampleRate
      = rate ∧
    (handleMessage powerFromdB st (.dspSignalNotification rate freq)).2.frequencyOffset =
      (rate : ℚ) * shiftFactor st.settings.log2Interp st.settings.filterChainHash ∧
    (handleMessage powerFromdB st (.dspSignalNotification rate freq)).2.basebandQueue =
      st.basebandQueue ++ [.dspSignalNotification rate freq] ∧
    ∀ q, st.guiQueue = some q →
      (handleMessage powerFromdB st (.dspSignalNotification rate freq)).2.guiQueue =
        some (q ++ [.msgSampleRateNotification rate]) := by
  cases hq : st.guiQueue <;>
    simp [handleMessage, calculateFrequencyOffset, pushBaseband, hq]

/-- Witness for C4 at a concrete input: the sample state has a GUI
queue, and the rate notification lands on it. -/
theorem handleMessage_dspSignalNotification_witness :
    (handleMessage (fun _ => 0) sampleState
        (.dspSignalNotification 48000 145000000)).2.guiQueue =
      some ([] ++ [.msgSampleRateNotification 48000]) :=
  (handleMessage_dspSignalNotification (fun _ => 0) sampleState
    48000 145000000).2.2.2.2 [] rfl

/-- Claim C6: change detection in `applySettings` is field-by-field —
each of the keys "loop", "fileName" and "gainDB" is in the reverse-API
key list exactly when the corresponding field differs from the stored
settings or `force` holds, and the linear gain is recomputed from the
new `gainDB` exactly when "gainDB" is so detected. -/
theorem applySettings_change_detection (powerFromdB : Int → ℚ)
    (st : FileSourceState) (settings : FileSourceSettings) (force : Bool) :
    ("loop" ∈ (applySettings powerFromdB st settings force).2 ↔
      (st.settings.loop ≠ settings.loop ∨ force = true)) ∧
    ("fileName" ∈ (applySettings powerFromdB st settings force).2 ↔
      (st.settings.fileName ≠ settings.fileName ∨ force = true)) ∧
    ("gainDB" ∈ (applySettings powerFromdB st settings force).2 ↔
      (st.settings.gainDB ≠ settings.gainDB ∨ force = true)) ∧
    (applySettings powerFromdB st settings force).1.linearGain =
      (if st.settings.gainDB ≠ settings.gainDB ∨ force = true
       then powerFromdB settings.gainDB else st.linearGain) := by
  by_cases h1 : st.settings.loop ≠ settings.loop ∨ force = true <;>
  by_cases h2 : st.settings.fileName ≠ settings.fileName ∨ force = true <;>
  by_cases h3 : st.settings.gainDB ≠ settings.gainDB ∨ force = true <;>
    simp [applySettings, pushBaseband, h1, h2, h3]

/-- Claim C7: the elapsed-time part of the channel report — with a zero
file sample rate the computation is skipped (no division) and the
report shows the zero sentinel; with a positive rate the seconds are
`samplesCount / fileSampleRate` and the milliseconds are below 1000. -/
theorem webapiFormatChannelReport_elapsed (samplesCount fileSampleRate : Nat)
    (h : 0 < fileSampleRate) :
    elapsedTime samplesCount 0 = (0, 0) ∧
    reportElapsedString samplesCount 0 = "00:00:00.000" ∧
    (elapsedTime samplesCount fileSampleRate).1 = samplesCount / fileSampleRate ∧
    (elapsedTime samplesCount fileSampleRate).2 < 1000 := by
  have hmod : samplesCount - samplesCount / fileSampleRate * fileSampleRate =
      samplesCount % fileSampleRate := by
    have h2 := Nat.div_add_mod' samplesCount fileSampleRate
    omega
  have he : (elapsedTime samplesCount fileSampleRate).2 =
      samplesCount % fileSampleRate * 1000 / fileSampleRate := by
    simp only [elapsedTime, if_pos h]
    rw [hmod]
  refine ⟨rfl, ?_, ?_, ?_⟩
  · rw [reportElapsedString, show elapsedTime samplesCount 0 = (0, 0) from rfl]
    decide
  · simp [elapsedTime, h]
  · have hlt : samplesCount % fileSampleRate < fileSampleRate :=
      Nat.mod_lt _ h
    rw [he, Nat.div_lt_iff_lt_mul h]
    omega

/-- Witness for C7 at a concrete input: 7 samples at 2 samples per
second give 3 whole seconds and 500 milliseconds. -/
theorem webapiFormatChannelReport_elapsed_witness :
    reportElapsedString 7 0 = "00:00:00.000" ∧
    (elapsedTime 7 2).1 = 7 / 2 ∧ (elapsedTime 7 2).2 < 1000 :=
  ⟨(webapiFormatChannelReport_elapsed 7 2 (by norm_num)).2.1,
   (webapiFormatChannelReport_elapsed 7 2 (by norm_num)).2.2.1,
   (webapiFormatChannelReport_elapsed 7 2 (by norm_num)).2.2.2⟩

/-- Claim C9: `deserialize` appends exactly one
`MsgConfigureFileSource` with the force flag true to the input queue,
returns `true` exactly when parsing succeeded, and the settings the
message carries are the parsed snapshot on success and the defaults
after a reset on failure — never a partially-deserialized value. -/
theorem deserialize_enqueues_configure (des : List Nat → Option FileSourceSettings)
    (defaults settings : FileSourceSettings) (inputQueue : List Message)
    (data : List Nat) :
    (deserialize des defaults settings inputQueue data).2.2 =
      inputQueue ++ [.msgConfigureFileSource
        (deserialize des defaults settings inputQueue data).2.1 true] ∧
    ((deserialize des defaults settings inputQueue data).1 = true ↔
      (des data).isSome) ∧
    (deserialize des defaults settings inputQueue data).2.1 =
      (des data).getD defaults := by
  cases h : des data <;> simp [deserialize, h]

end FileSourceModel
